import Mathlib

/-!
Shallow embedding of the batch-plant monitoring repository: the OPC UA
telemetry client and state decoder of batch_plant_functions.py, the recipe
repository of batch_plant_storage.py, the synchronous tool wrappers of
tools.py, and the feasibility evaluation described by the agent prompt in
main.py. External effects (the network session and the database) are modelled
by explicit oracle parameters, and each embedded Python call either returns a
value or raises, captured by `PyResult`.
-/

namespace BatchPlant

/-- Observable outcome of a Python call: a returned value or a raised
exception carrying a message. -/
inductive PyResult (α : Type) where
  | returns (a : α)
  | raises (msg : String)
deriving DecidableEq

/-- Whether a call outcome is a raised exception. -/
def PyResult.raised {α : Type} : PyResult α → Bool
  | .raises _ => true
  | .returns _ => false

/-- The MachineState IntEnum of batch_plant_functions.py (codes 0..7). -/
inductive MachineState where
  | DISABLED
  | IDLE
  | RUNNING
  | STARVED
  | BLOCKED
  | PLANNED_DOWNTIME
  | UNPLANNED_DOWNTIME
  | OTHER
deriving DecidableEq

/-- IntEnum value lookup MachineState(state_int): succeeds exactly on the
eight known codes 0..7, and fails (ValueError) on every other integer. -/
def MachineState.ofInt (n : Int) : Option MachineState :=
  if n = 0 then some .DISABLED
  else if n = 1 then some .IDLE
  else if n = 2 then some .RUNNING
  else if n = 3 then some .STARVED
  else if n = 4 then some .BLOCKED
  else if n = 5 then some .PLANNED_DOWNTIME
  else if n = 6 then some .UNPLANNED_DOWNTIME
  else if n = 7 then some .OTHER
  else none

/-- Python state.name.lower(), evaluated for each enum member. -/
def MachineState.lowerName : MachineState → String
  | .DISABLED => "disabled"
  | .IDLE => "idle"
  | .RUNNING => "running"
  | .STARVED => "starved"
  | .BLOCKED => "blocked"
  | .PLANNED_DOWNTIME => "planned_downtime"
  | .UNPLANNED_DOWNTIME => "unplanned_downtime"
  | .OTHER => "other"

/-- OPCUABatchPlantClient._int_to_state_string: try MachineState(state_int)
and return state.name.lower(); on ValueError return the unknown_state string
carrying the raw integer. -/
def int_to_state_string (state_int : Int) : String :=
  match MachineState.ofInt state_int with
  | some state => state.lowerName
  | none => "unknown_state_" ++ toString state_int

/-- Module-level configuration constant of batch_plant_functions.py. -/
def SERVER_URL : String := "opc.tcp://desktop-fjjsr46:26543/BatchPlantServer"

/-- Node identifier constant of batch_plant_functions.py. -/
def TANK1_LEVEL_NODE_ID : String := "ns=2;i=328"

/-- Node identifier constant of batch_plant_functions.py. -/
def TANK2_LEVEL_NODE_ID : String := "ns=2;i=352"

/-- Node identifier constant of batch_plant_functions.py. -/
def TANK3_LEVEL_NODE_ID : String := "ns=2;i=376"

/-- Node identifier constant of batch_plant_functions.py. -/
def MIXER_STATE_NODE_ID : String := "ns=3;s=MixerState"

/-- Node identifier constant of batch_plant_functions.py. -/
def REACTOR_STATE_NODE_ID : String := "ns=3;s=Reactor1State"

/-- Node identifier constant of batch_plant_functions.py. -/
def FILLER_STATE_NODE_ID : String := "ns=3;s=Filler1State"

/-- Environment of one telemetry query cycle: whether the awaited session
open succeeds, and the value readable at each node identifier (none models a
failed read). Tank nodes carry numeric levels, machine nodes integer codes. -/
structure TelemetryOracle where
  connectOk : Bool
  tankValue : String → Option ℚ
  machineValue : String → Option Int

/-- Session lifecycle calls observed on the underlying asyncua client, as
counted by a test double. -/
inductive SessionEv where
  | connectCall
  | disconnectCall
deriving DecidableEq

/-- State of an OPCUABatchPlantClient instance: the configured URL and the
optional underlying asyncua Client object (carrying the URL it was built
with); the field is None until connect is first called. -/
structure OPCUABatchPlantClient where
  server_url : String
  client : Option String
deriving DecidableEq

/-- The constructor: its server_url parameter is accepted but the body
assigns the module constant SERVER_URL, and sets the client field to None. -/
def OPCUABatchPlantClient.init (server_url : Option String) : OPCUABatchPlantClient :=
  { server_url := SERVER_URL, client := none }

/-- connect: assign the underlying Client object built from self.server_url,
then await its connect; the assignment happens before the await, so the
client field is set even when the open fails. Returns the updated state, the
emitted open call, and whether the open succeeded. -/
def OPCUABatchPlantClient.connect (c : OPCUABatchPlantClient) (o : TelemetryOracle) :
    OPCUABatchPlantClient × List SessionEv × Bool :=
  ({ c with client := some c.server_url }, [SessionEv.connectCall], o.connectOk)

/-- disconnect: if self.client is set, await the underlying disconnect (one
close call); the client field is never cleared. -/
def OPCUABatchPlantClient.disconnect (c : OPCUABatchPlantClient) :
    OPCUABatchPlantClient × List SessionEv :=
  match c.client with
  | none => (c, [])
  | some _ => (c, [SessionEv.disconnectCall])

/-- Method get_material_availability: read the three tank levels in order,
aborting at the first failed read (the except clause re-raises). -/
def OPCUABatchPlantClient.get_material_availability
    (c : OPCUABatchPlantClient) (o : TelemetryOracle) : PyResult (ℚ × ℚ × ℚ) :=
  match o.tankValue TANK1_LEVEL_NODE_ID with
  | none => .raises "ReadError"
  | some t1 =>
    match o.tankValue TANK2_LEVEL_NODE_ID with
    | none => .raises "ReadError"
    | some t2 =>
      match o.tankValue TANK3_LEVEL_NODE_ID with
      | none => .raises "ReadError"
      | some t3 => .returns (t1, t2, t3)

/-- Method get_machine_states: read the three machine codes in order,
aborting at the first failed read, and decode each through
_int_to_state_string. -/
def OPCUABatchPlantClient.get_machine_states
    (c : OPCUABatchPlantClient) (o : TelemetryOracle) : PyResult (String × String × String) :=
  match o.machineValue MIXER_STATE_NODE_ID with
  | none => .raises "ReadError"
  | some m =>
    match o.machineValue REACTOR_STATE_NODE_ID with
    | none => .raises "ReadError"
    | some r =>
      match o.machineValue FILLER_STATE_NODE_ID with
      | none => .raises "ReadError"
      | some f =>
        .returns (int_to_state_string m, int_to_state_string r, int_to_state_string f)

/-- Standalone get_material_availability: construct a client, connect, read
the tank levels, and disconnect in a finally block, so the close runs on the
success path and on both failure paths. Returns the call outcome together with
the trace of session open and close calls. -/
def get_material_availability (o : TelemetryOracle) :
    PyResult (ℚ × ℚ × ℚ) × List SessionEv :=
  let c := OPCUABatchPlantClient.init none
  let (c1, tConn, ok) := c.connect o
  if ok then
    match c1.get_material_availability o with
    | .returns r => (.returns r, tConn ++ c1.disconnect.2)
    | .raises m => (.raises m, tConn ++ c1.disconnect.2)
  else
    (.raises "ConnectionError", tConn ++ c1.disconnect.2)

/-- Standalone get_machine_states: same shape as the material query, with the
disconnect again in a finally block. -/
def get_machine_states (o : TelemetryOracle) :
    PyResult (String × String × String) × List SessionEv :=
  let c := OPCUABatchPlantClient.init none
  let (c1, tConn, ok) := c.connect o
  if ok then
    match c1.get_machine_states o with
    | .returns r => (.returns r, tConn ++ c1.disconnect.2)
    | .raises m => (.raises m, tConn ++ c1.disconnect.2)
  else
    (.raises "ConnectionError", tConn ++ c1.disconnect.2)

/-- Positional and keyword arguments an agent may pass to a tool call. -/
structure ToolArgs where
  args : List String
  kwargs : List (String × String)

/-- material_availability_sync of tools.py: accepts any arguments and ignores
them, calling the standalone query with no arguments. -/
def material_availability_sync (a : ToolArgs) (o : TelemetryOracle) :
    PyResult (ℚ × ℚ × ℚ) × List SessionEv :=
  get_material_availability o

/-- machine_states_sync of tools.py: accepts any arguments and ignores them,
calling the standalone query with no arguments. -/
def machine_states_sync (a : ToolArgs) (o : TelemetryOracle) :
    PyResult (String × String × String) × List SessionEv :=
  get_machine_states o

/-- Row of the raw_materials table. -/
structure RawMaterial where
  id : Int
  name : String
  tank_number : Int
deriving DecidableEq

/-- Row of the products table. -/
structure ProductRow where
  id : Int
  name : String
deriving DecidableEq

/-- Row of the product_recipes table. -/
structure ProductRecipeRow where
  product_id : Int
  material_id : Int
  quantity : ℚ
deriving DecidableEq

/-- Relational state the recipe query runs against. -/
structure Database where
  products : List ProductRow
  raw_materials : List RawMaterial
  product_recipes : List ProductRecipeRow

/-- Result row of the recipe query, as fetched by the cursor. -/
structure DbRow where
  material_name : String
  tank_number : Int
  quantity : ℚ
deriving DecidableEq

/-- The fixed SQL text of the recipe query in get_product_details. -/
def product_details_query : String :=
  "\n    -- Get recipe for product by name\n    SELECT\n        rm.name AS material_name,\n        rm.tank_number,\n        pr.quantity\n    FROM product_recipes pr\n    JOIN raw_materials rm ON pr.material_id = rm.id\n    JOIN products p ON pr.product_id = p.id\n    WHERE p.name = %s\n    ORDER BY rm.tank_number;\n    "

/-- cursor.execute(query, (product_name,)): the statement text actually sent
to the database and the bound parameter tuple. -/
def executedStatement (product_name : String) : String × List String :=
  (product_details_query, [product_name])

/-- Comparison used by the ORDER BY rm.tank_number clause. -/
def tankNumberLe (a b : DbRow) : Prop :=
  a.tank_number ≤ b.tank_number

instance : DecidableRel tankNumberLe :=
  fun a b => inferInstanceAs (Decidable (a.tank_number ≤ b.tank_number))

instance : IsTotal DbRow tankNumberLe :=
  ⟨fun a b => Int.le_total a.tank_number b.tank_number⟩

instance : IsTrans DbRow tankNumberLe :=
  ⟨fun _ _ _ hab hbc => le_trans hab hbc⟩

/-- Relational semantics of the fixed query: inner joins of product_recipes
with raw_materials and products on the id columns, selection on the product
name, projection to (material_name, tank_number, quantity), and ORDER BY
rm.tank_number, evaluated here as an insertion sort by tank_number. -/
def runProductQuery (db : Database) (product_name : String) : List DbRow :=
  let joined :=
    db.product_recipes.flatMap fun pr =>
      db.raw_materials.flatMap fun rm =>
        db.products.filterMap fun p =>
          if pr.material_id = rm.id ∧ pr.product_id = p.id ∧ p.name = product_name then
            some { material_name := rm.name, tank_number := rm.tank_number,
                   quantity := pr.quantity }
          else none
  joined.insertionSort tankNumberLe

/-- Recipe line as assembled into the returned JSON structure. -/
structure RecipeDetail where
  material_name : String
  tank_number : Int
  quantity : ℚ
deriving DecidableEq

/-- get_product_details of batch_plant_storage.py over an optional database
(none models a psycopg2 error at connect or at execute): on success it builds
the JSON structure holding the product name and the fetched recipe rows; on a
database error the exception is caught, a message is printed, and None is
returned; cursor and connection are closed in a finally block. The function
itself never raises. -/
def get_product_details (db : Option Database) (product_name : String) :
    PyResult (Option (String × List RecipeDetail)) :=
  match db with
  | none => .returns none
  | some d =>
      .returns (some (product_name,
        (runProductQuery d product_name).map fun r =>
          { material_name := r.material_name, tank_number := r.tank_number,
            quantity := r.quantity }))

/-- Modelled from the spec: the Feasibility Evaluator of spec section 4.4 is
carried out at runtime by the language-model agent following the system
prompt in main.py and is not present as code under src/; its per-material
sufficiency rule is sufficient = available >= quantity_per_batch * batches,
with an inclusive boundary. -/
def materialSufficient (line : RecipeDetail) (batches : ℕ) (available : ℚ) : Bool :=
  decide (available ≥ line.quantity * batches)

theorem material_availability_trace (o : TelemetryOracle) :
    (get_material_availability o).2 = [SessionEv.connectCall, SessionEv.disconnectCall] := by
  unfold get_material_availability OPCUABatchPlantClient.init OPCUABatchPlantClient.connect
    OPCUABatchPlantClient.disconnect
  cases o.connectOk <;> simp <;> split <;> rfl

theorem machine_states_trace (o : TelemetryOracle) :
    (get_machine_states o).2 = [SessionEv.connectCall, SessionEv.disconnectCall] := by
  unfold get_machine_states OPCUABatchPlantClient.init OPCUABatchPlantClient.connect
    OPCUABatchPlantClient.disconnect
  cases o.connectOk <;> simp <;> split <;> rfl

/-- C1: the machine-state decoder maps each integer code 0..7 to the
corresponding named state of the closed enumeration, and every integer
outside 0..7, negatives included, to the unknown_state variant carrying the
raw integer; being a total Lean function it never raises. -/
theorem c1_state_decoder_total (n : Int) :
    (n = 0 → int_to_state_string n = "disabled") ∧
    (n = 1 → int_to_state_string n = "idle") ∧
    (n = 2 → int_to_state_string n = "running") ∧
    (n = 3 → int_to_state_string n = "starved") ∧
    (n = 4 → int_to_state_string n = "blocked") ∧
    (n = 5 → int_to_state_string n = "planned_downtime") ∧
    (n = 6 → int_to_state_string n = "unplanned_downtime") ∧
    (n = 7 → int_to_state_string n = "other") ∧
    ((n < 0 ∨ 7 < n) → int_to_state_string n = "unknown_state_" ++ toString n) := by
  refine ⟨?_, ?_, ?_, ?_, ?_, ?_, ?_, ?_, ?_⟩ <;> intro h
  · subst h; decide
  · subst h; decide
  · subst h; decide
  · subst h; decide
  · subst h; decide
  · subst h; decide
  · subst h; decide
  · subst h; decide
  · have h0 : MachineState.ofInt n = none := by
      unfold MachineState.ofInt
      repeat rw [if_neg (by omega)]
    unfold int_to_state_string
    rw [h0]

/-- Witness for C1 at the concrete out-of-range code -5. -/
theorem c1_state_decoder_total_w :
    int_to_state_string (-5) = "unknown_state_" ++ toString (-5 : Int) :=
  (c1_state_decoder_total (-5)).2.2.2.2.2.2.2.2 (Or.inl (by decide))

/-- C2: for every telemetry environment, each standalone query operation
emits equally many session open calls and session close calls, on the
success path as well as on the connect-failure and read-failure paths. -/
theorem c2_opens_eq_closes (o : TelemetryOracle) :
    (get_material_availability o).2.count SessionEv.connectCall =
      (get_material_availability o).2.count SessionEv.disconnectCall ∧
    (get_machine_states o).2.count SessionEv.connectCall =
      (get_machine_states o).2.count SessionEv.disconnectCall := by
  rw [material_availability_trace, machine_states_trace]
  exact ⟨by decide, by decide⟩

/-- C3 counterexample: when the database connection or query fails (for any
product, here the concrete product name used in the repository), the lookup
does not raise any error to the caller; it catches the database error and
returns None. -/
theorem c3_no_error_propagation :
    get_product_details none "Product A" = PyResult.returns none ∧
    (get_product_details none "Product A").raised = false :=
  ⟨rfl, rfl⟩

/-- C3 amended: when the database is unreachable or the query fails, the
lookup catches the error and returns None rather than raising a typed error;
for every reachable database it returns a non-None JSON structure, in
particular Some (product, empty list) for an unknown product, so the caller
can still distinguish the failure outcome from the valid empty-recipe
outcome. -/
theorem c3_failure_distinguishable (p : String) (d : Database) :
    get_product_details none p = PyResult.returns none ∧
    get_product_details (some d) p =
      PyResult.returns (some (p, (runProductQuery d p).map fun r =>
        { material_name := r.material_name, tank_number := r.tank_number,
          quantity := r.quantity })) ∧
    get_product_details (some d) p ≠ PyResult.returns none := by
  refine ⟨rfl, rfl, ?_⟩
  intro h
  simp [get_product_details] at h

/-- Witness for the C3 amended theorem at a concrete product and database. -/
theorem c3_failure_distinguishable_w :
    get_product_details
      (some { products := [], raw_materials := [], product_recipes := [] })
      "Product A" ≠ PyResult.returns none :=
  (c3_failure_distinguishable "Product A"
    { products := [], raw_materials := [], product_recipes := [] }).2.2

/-- C4: in the feasibility evaluation, sufficiency uses an inclusive
boundary: when the available tank level exactly equals quantity_per_batch
times the requested batches, the per-material sufficient flag is true. -/
theorem c4_boundary_inclusive (line : RecipeDetail) (batches : ℕ) (available : ℚ)
    (h : available = line.quantity * batches) :
    materialSufficient line batches available = true := by
  subst h
  simp [materialSufficient]

/-- Witness for C4: three batches of ten litres each against exactly thirty
litres available. -/
theorem c4_boundary_inclusive_w :
    materialSufficient
      { material_name := "Water", tank_number := 1, quantity := 10 } 3 30 = true :=
  c4_boundary_inclusive _ 3 30 (by norm_num)

/-- C6: every recipe returned by the lookup is ordered by tank id
(tank_number) ascending. -/
theorem c6_recipe_ordered (d : Database) (p : String) (recipe : List RecipeDetail)
    (h : get_product_details (some d) p = PyResult.returns (some (p, recipe))) :
    recipe.Pairwise fun a b => a.tank_number ≤ b.tank_number := by
  have hs : List.Sorted tankNumberLe (runProductQuery d p) := by
    unfold runProductQuery
    exact List.sorted_insertionSort tankNumberLe _
  simp only [get_product_details, PyResult.returns.injEq, Option.some.injEq,
    Prod.mk.injEq, true_and] at h
  subst h
  rw [List.pairwise_map]
  exact hs.imp fun hab => hab

/-- Witness for C6: a concrete database whose recipe rows are stored out of
tank order; the returned recipe is sorted by tank_number. -/
theorem c6_recipe_ordered_w :
    List.Pairwise (fun a b : RecipeDetail => a.tank_number ≤ b.tank_number)
      [{ material_name := "Water", tank_number := 1, quantity := 10 },
       { material_name := "Acid", tank_number := 2, quantity := 5 }] :=
  c6_recipe_ordered
    { products := [{ id := 1, name := "Product A" }],
      raw_materials := [{ id := 1, name := "Water", tank_number := 1 },
                        { id := 2, name := "Acid", tank_number := 2 }],
      product_recipes := [{ product_id := 1, material_id := 2, quantity := 5 },
                          { product_id := 1, material_id := 1, quantity := 10 }] }
    "Product A" _ (by decide)

/-- C7: the recipe lookup sends the same fixed statement text whatever the
product name; the name enters only through the bound-parameter list. -/
theorem c7_query_parameterized (p q : String) :
    (executedStatement p).1 = (executedStatement q).1 ∧
    (executedStatement p).2 = [p] :=
  ⟨rfl, rfl⟩

/-- C8 counterexample: after a connect and a disconnect, a second disconnect
call again invokes the underlying client disconnect (the client field is
never cleared), so disconnect on an already-closed session is not free of
observable effect. -/
theorem c8_second_disconnect_not_noop :
    ((((OPCUABatchPlantClient.init none).connect
          ⟨true, fun _ => none, fun _ => none⟩).1.disconnect).1.disconnect).2 =
      [SessionEv.disconnectCall] := rfl

/-- C8 amended: disconnect is safe and a no-op on a never-opened session; on
any session whose connect was attempted (the client field is set, including
after a failed open or a previous disconnect) each disconnect call performs
exactly one underlying disconnect and leaves the state unchanged, so repeated
calls never raise but each re-issues the underlying close. -/
theorem c8_disconnect_guarded (s : Option String) (c : OPCUABatchPlantClient)
    (h : c.client.isSome = true) :
    (OPCUABatchPlantClient.init s).disconnect = (OPCUABatchPlantClient.init s, []) ∧
    c.disconnect = (c, [SessionEv.disconnectCall]) := by
  constructor
  · rfl
  · match c, h with
    | { server_url := u, client := some v }, _ => rfl

/-- Witness for C8 at a concrete opened client state. -/
theorem c8_disconnect_guarded_w :
    ({ server_url := SERVER_URL, client := some SERVER_URL } :
        OPCUABatchPlantClient).disconnect =
      ({ server_url := SERVER_URL, client := some SERVER_URL }, [SessionEv.disconnectCall]) :=
  (c8_disconnect_guarded none
    { server_url := SERVER_URL, client := some SERVER_URL } rfl).2

/-- C9: the constructor ignores the endpoint URL supplied at construction and
stores the hardcoded module constant instead, so a client constructed with a
different URL still aims at SERVER_URL; the claim that the session connects
to the supplied URL fails at this input. -/
theorem c9_supplied_url_ignored :
    (OPCUABatchPlantClient.init (some "opc.tcp://localhost:4840")).server_url = SERVER_URL ∧
    (SERVER_URL == "opc.tcp://localhost:4840") = false :=
  ⟨rfl, by decide⟩

/-- C10: the synchronous tool wrappers ignore every positional and keyword
argument: any argument vector produces the same outcome and session trace as
the empty one. -/
theorem c10_tool_args_ignored (a : ToolArgs) (o : TelemetryOracle) :
    material_availability_sync a o = material_availability_sync ⟨[], []⟩ o ∧
    machine_states_sync a o = machine_states_sync ⟨[], []⟩ o :=
  ⟨rfl, rfl⟩

end BatchPlant
